import Mathlib

/-!
Shallow embedding of the transaction HTTP API (`src/main.go`).

The store is the external Postgres `transactions` relation, modelled as a
list of rows with columns `id, date, description, amount, type, created_at,
job_id`.  Each handler is embedded as a pure function of the store state;
the possibility that a statement fails to reach the store (connection loss
and the like) is modelled by an `Option String` parameter per issued
statement: `some e` means that statement errors with message `e` (the text
that Go reads off `err.Error()`), `none` means the statement reaches the
store and behaves according to the SQL semantics.

The two SQL statements of `deleteMostRecentJob` are not wrapped in a store
transaction, so the handler is embedded over two store snapshots: the state
seen by the `SELECT` of step 1 and the state seen by the `DELETE` of step 2
(they coincide when no concurrent modification interleaves).

`float64` amounts are modelled as rationals; timestamps and dates as
integers; the `id` column as an integer.  The `id` path parameter is a raw
string handed to the store, which casts it to an integer and errors on
malformed input (`castToInt` models that cast).
-/

/-- A row of the `transactions` relation. -/
structure Row where
  id : Int
  date : Int
  description : String
  amount : Rat
  ty : String
  created_at : Int
  job_id : String
deriving DecidableEq

/-- The `Transaction` struct scanned by the Go handlers: the six selected
columns, without `job_id`. -/
structure Transaction where
  id : Int
  date : Int
  description : String
  amount : Rat
  ty : String
  created_at : Int
deriving DecidableEq

/-- Projection of a table row to the scanned struct (the `SELECT` lists the
six columns `id, date, description, amount, type, created_at`). -/
def toTransaction (r : Row) : Transaction :=
  ⟨r.id, r.date, r.description, r.amount, r.ty, r.created_at⟩

/-- A JSON response body, one constructor per shape the handlers emit.
`jsonNull` is the serialization of a nil Go slice (`var transactions
[]Transaction` never appended to). -/
inductive Body where
  | jsonErr (msg : String)
  | jsonMsg (msg : String)
  | jsonTx (t : Transaction)
  | jsonList (ts : List Transaction)
  | jsonNull
  | jsonStats (total : Nat) (debits credits : Rat)
deriving DecidableEq

/-- An HTTP response: status code and JSON body. -/
structure Response where
  status : Nat
  body : Body
deriving DecidableEq

/-- `ORDER BY date DESC` comparison: `a` before `b` when `a.date ≥ b.date`. -/
def dateGe (a b : Row) : Prop := b.date ≤ a.date

instance : DecidableRel dateGe := fun a b => inferInstanceAs (Decidable (b.date ≤ a.date))

instance : IsTotal Row dateGe := ⟨fun a b => le_total b.date a.date⟩

instance : IsTrans Row dateGe := ⟨fun _ _ _ h h2 => le_trans h2 h⟩

/-- `ORDER BY created_at DESC` comparison. -/
def createdGe (a b : Row) : Prop := b.created_at ≤ a.created_at

instance : DecidableRel createdGe := fun a b =>
  inferInstanceAs (Decidable (b.created_at ≤ a.created_at))

instance : IsTotal Row createdGe := ⟨fun a b => le_total b.created_at a.created_at⟩

instance : IsTrans Row createdGe := ⟨fun _ _ _ h h2 => le_trans h2 h⟩

/-- `SELECT ... FROM transactions ORDER BY date DESC`. -/
def sortByDateDesc (db : List Row) : List Row :=
  List.insertionSort dateGe db

/-- `SELECT job_id FROM transactions ORDER BY created_at DESC LIMIT 1`:
the `job_id` of a row with maximal `created_at`, `none` on an empty table. -/
def qTopJobId (db : List Row) : Option String :=
  (List.insertionSort createdGe db).head?.map Row.job_id

/-- Decimal digits of an integer literal, most significant first; `none`
unless the list is nonempty and all digits. -/
def parseNatDigits (l : List Char) : Option Nat :=
  match l with
  | [] => none
  | _ =>
    l.foldl (fun acc c =>
      match acc with
      | none => none
      | some n => if c.isDigit then some (n * 10 + (c.toNat - 48)) else none) (some 0)

/-- The Postgres cast of a text value to the integer `id` column: an
optional sign followed by at least one digit; anything else fails. -/
def castToInt (s : String) : Option Int :=
  match s.data with
  | [] => none
  | c :: rest =>
    if c = '-' then (parseNatDigits rest).map (fun n => -(n : Int))
    else if c = '+' then (parseNatDigits rest).map (fun n => (n : Int))
    else (parseNatDigits (c :: rest)).map (fun n => (n : Int))

/-- The Postgres error raised when the text parameter `$1` does not cast to
the integer `id` column. -/
def invalidInputSyntax (s : String) : String :=
  "invalid input syntax for type integer: " ++ s

/-- The `pgx.ErrNoRows` error returned by `Scan` when a `QueryRow` matched
zero rows. -/
def noRowsError : String := "no rows in result set"

/-- `SELECT ... FROM transactions WHERE id = $1` with `$1` the raw path
parameter: errors when the parameter does not cast to an integer, otherwise
returns the matching rows. -/
def qById (db : List Row) (s : String) : Except String (List Row) :=
  match castToInt s with
  | none => .error (invalidInputSyntax s)
  | some i => .ok (db.filter (fun r => r.id = i))

/-- `SELECT COUNT(*) FROM transactions`: a fold over the rows. -/
def qCount (db : List Row) : Nat :=
  db.foldr (fun _ n => n + 1) 0

/-- `SELECT COALESCE(SUM(amount), 0) FROM transactions WHERE type = 'debit'`:
a fold over the rows, starting from the coalesced zero. -/
def qSumDebit (db : List Row) : Rat :=
  db.foldr (fun r acc => if r.ty = "debit" then r.amount + acc else acc) 0

/-- `SELECT COALESCE(SUM(amount), 0) FROM transactions WHERE type = 'credit'`. -/
def qSumCredit (db : List Row) : Rat :=
  db.foldr (fun r acc => if r.ty = "credit" then r.amount + acc else acc) 0

/-- `DELETE FROM transactions WHERE id = $1`: errors on a malformed
parameter, otherwise returns the new table and the number of rows affected. -/
def xDeleteById (db : List Row) (s : String) : Except String (List Row × Nat) :=
  match castToInt s with
  | none => .error (invalidInputSyntax s)
  | some i => .ok (db.filter (fun r => r.id ≠ i), (db.filter (fun r => r.id = i)).length)

/-- `DELETE FROM transactions WHERE job_id = $1`: new table and rows affected. -/
def xDeleteByJob (db : List Row) (j : String) : List Row × Nat :=
  (db.filter (fun r => r.job_id ≠ j), (db.filter (fun r => r.job_id = j)).length)

/-- Handler for `GET /transactions` (`src/main.go:63`).  `comm = some e`
models the `Query` call failing with message `e`.  Returns the response and
the store state after the request.  A nil slice (zero rows scanned)
serializes to JSON `null`. -/
def getTransactions (db : List Row) (comm : Option String) : Response × List Row :=
  match comm with
  | some e => (⟨500, .jsonErr e⟩, db)
  | none =>
    match (sortByDateDesc db).map toTransaction with
    | [] => (⟨200, .jsonNull⟩, db)
    | ts => (⟨200, .jsonList ts⟩, db)

/-- Handler for `GET /transactions/{id}` (`src/main.go:85`).  Every error
from `QueryRow(...).Scan` — communication failure, malformed id, or zero
rows — takes the single `if err != nil` branch: 404 `Transaction not found`. -/
def getTransaction (db : List Row) (id : String) (comm : Option String) :
    Response × List Row :=
  match comm with
  | some _ => (⟨404, .jsonErr "Transaction not found"⟩, db)
  | none =>
    match qById db id with
    | .error _ => (⟨404, .jsonErr "Transaction not found"⟩, db)
    | .ok [] => (⟨404, .jsonErr "Transaction not found"⟩, db)
    | .ok (r :: _) => (⟨200, .jsonTx (toTransaction r)⟩, db)

/-- Handler for `GET /stats` (`src/main.go:101`).  Three sequential
aggregate queries; `c1, c2, c3` model each one failing.  The last component
counts the statements actually issued (the code returns from the first
failing query without issuing the later ones). -/
def getStats (db : List Row) (c1 c2 c3 : Option String) :
    Response × List Row × Nat :=
  match c1 with
  | some e => (⟨500, .jsonErr e⟩, db, 1)
  | none =>
    let total := qCount db
    match c2 with
    | some e => (⟨500, .jsonErr e⟩, db, 2)
    | none =>
      let debits := qSumDebit db
      match c3 with
      | some e => (⟨500, .jsonErr e⟩, db, 3)
      | none => (⟨200, .jsonStats total debits (qSumCredit db)⟩, db, 3)

/-- Handler for `DELETE /transactions/{id}` (`src/main.go:132`).  An `Exec`
error (communication failure or malformed id) is 500 with the raw error
text; zero rows affected is 404; otherwise 200. -/
def deleteTransaction (db : List Row) (id : String) (comm : Option String) :
    Response × List Row :=
  match comm with
  | some e => (⟨500, .jsonErr e⟩, db)
  | none =>
    match xDeleteById db id with
    | .error e => (⟨500, .jsonErr e⟩, db)
    | .ok (db2, n) =>
      if n = 0 then (⟨404, .jsonErr "Transaction not found"⟩, db2)
      else (⟨200, .jsonMsg "Transaction deleted"⟩, db2)

/-- Handler for `DELETE /jobs/most-recent` (`src/main.go:150`).  Step 1
(`SELECT job_id ... ORDER BY created_at DESC LIMIT 1`) runs against
snapshot `db1`; step 2 (`DELETE ... WHERE job_id = $1`) against snapshot
`db2` — the two statements are not wrapped in a store transaction.  On an
empty table, `Scan` fails with `pgx.ErrNoRows` and the handler returns 500. -/
def deleteMostRecentJob (db1 db2 : List Row) (c1 c2 : Option String) :
    Response × List Row :=
  match c1 with
  | some e => (⟨500, .jsonErr e⟩, db2)
  | none =>
    match qTopJobId db1 with
    | none => (⟨500, .jsonErr noRowsError⟩, db2)
    | some j =>
      match c2 with
      | some e => (⟨500, .jsonErr e⟩, db2)
      | none =>
        match xDeleteByJob db2 j with
        | (db3, n) =>
          if n = 0 then (⟨404, .jsonErr "Transaction not found"⟩, db3)
          else (⟨200, .jsonMsg "Most recent job transactions deleted"⟩, db3)

/-- A concrete debit row of ingestion batch `A`, for concrete instances. -/
def rowA : Row := ⟨1, 10, "groceries", 50, "debit", 1, "A"⟩

/-- A concrete credit row of ingestion batch `B`, inserted after `rowA`. -/
def rowB : Row := ⟨2, 20, "salary", 30, "credit", 2, "B"⟩

/-! ## Helper lemmas -/

theorem sortByDateDesc_perm (db : List Row) : List.Perm (sortByDateDesc db) db :=
  List.perm_insertionSort dateGe db

theorem sortByDateDesc_sorted (db : List Row) : List.Sorted dateGe (sortByDateDesc db) :=
  List.sorted_insertionSort dateGe db

theorem qTopJobId_spec (db : List Row) (j : String) (h : qTopJobId db = some j) :
    ∃ r ∈ db, r.job_id = j ∧ ∀ s ∈ db, s.created_at ≤ r.created_at := by
  unfold qTopJobId at h
  rcases hl : List.insertionSort createdGe db with _ | ⟨r, t⟩
  · rw [hl] at h; simp at h
  · rw [hl] at h
    simp only [List.head?_cons, Option.map_some'] at h
    have hperm : List.Perm (r :: t) db := hl ▸ List.perm_insertionSort createdGe db
    have hsorted : List.Sorted createdGe (r :: t) :=
      hl ▸ List.sorted_insertionSort createdGe db
    refine ⟨r, hperm.mem_iff.mp (List.mem_cons_self r t), Option.some_injective _ h, ?_⟩
    intro s hs
    rcases List.mem_cons.mp (hperm.mem_iff.mpr hs) with rfl | hst
    · exact le_refl _
    · exact (List.sorted_cons.mp hsorted).1 s hst

theorem qTopJobId_isSome (db : List Row) (h : db ≠ []) :
    ∃ j, qTopJobId db = some j := by
  unfold qTopJobId
  rcases hl : List.insertionSort createdGe db with _ | ⟨r, t⟩
  · exact absurd ((hl ▸ List.perm_insertionSort createdGe db).symm.eq_nil) h
  · exact ⟨r.job_id, rfl⟩

theorem qCount_eq_length (db : List Row) : qCount db = db.length := by
  induction db with
  | nil => rfl
  | cons r t ih => simp [qCount, List.foldr_cons, List.length_cons] at ih ⊢; exact ih

theorem qSumDebit_eq (db : List Row) :
    qSumDebit db = ((db.filter (fun r => r.ty = "debit")).map Row.amount).sum := by
  induction db with
  | nil => rfl
  | cons r t ih =>
    unfold qSumDebit at ih ⊢
    by_cases h : r.ty = "debit" <;> simp [List.filter_cons, h, ih]

theorem qSumCredit_eq (db : List Row) :
    qSumCredit db = ((db.filter (fun r => r.ty = "credit")).map Row.amount).sum := by
  induction db with
  | nil => rfl
  | cons r t ih =>
    unfold qSumCredit at ih ⊢
    by_cases h : r.ty = "credit" <;> simp [List.filter_cons, h, ih]

theorem filter_id_eq_single (db : List Row) (i : Int) (r : Row)
    (hnd : db.Pairwise (fun a b => a.id ≠ b.id)) (hr : r ∈ db) (hi : r.id = i) :
    db.filter (fun x => x.id = i) = [r] := by
  induction db with
  | nil => cases hr
  | cons a t ih =>
    rcases List.mem_cons.mp hr with rfl | hrt
    · have ht : t.filter (fun x => x.id = i) = [] := by
        refine List.filter_eq_nil_iff.mpr (fun b hb => ?_)
        have hab := (List.pairwise_cons.mp hnd).1 b hb
        simp only [decide_eq_true_eq]
        intro hbi
        exact hab (by rw [hi, hbi])
      simp [List.filter_cons, hi, ht]
    · have hai : a.id ≠ i := by
        have hab := (List.pairwise_cons.mp hnd).1 r hrt
        rw [← hi]; exact hab
      rw [List.filter_cons]
      have := ih (List.pairwise_cons.mp hnd).2 hrt
      simp [hai, this]

theorem deleteMostRecentJob_step (db : List Row) (j : String)
    (hne : db ≠ [])
    (hmax : ∀ r ∈ db, (∀ s ∈ db, s.created_at ≤ r.created_at) → r.job_id = j) :
    deleteMostRecentJob db db none none =
      (⟨200, .jsonMsg "Most recent job transactions deleted"⟩,
       db.filter (fun r => r.job_id ≠ j)) := by
  obtain ⟨j0, hj0⟩ := qTopJobId_isSome db hne
  obtain ⟨r, hr, hrj, hrmax⟩ := qTopJobId_spec db j0 hj0
  have hjj : j0 = j := hrj ▸ hmax r hr hrmax
  subst hjj
  have hmem : r ∈ db.filter (fun x => x.job_id = j0) :=
    List.mem_filter.mpr ⟨hr, by simp [hrj]⟩
  have hn : (db.filter (fun x => x.job_id = j0)).length ≠ 0 := by
    intro h
    rw [List.length_eq_zero] at h
    rw [h] at hmem
    cases hmem
  unfold deleteMostRecentJob xDeleteByJob
  rw [hj0]
  simp [hn]

/-! ## Claim theorems -/

/-- C1, counterexample: on a store-communication failure, `GET
/transactions/{id}` answers 404, not the 500 the claim states — the handler
maps every `Scan` error to 404. -/
theorem getTransaction_storeError_counterexample :
    (getTransaction [] "7" (some "connection reset by peer")).1.status = 404 ∧
    (getTransaction [] "7" (some "connection reset by peer")).1.status ≠ 500 := by
  decide

/-- C1, amended: for `GET /transactions/{id}`, a store-communication
failure produces the same 404 `Transaction not found` response as a lookup
matching zero rows; the handler never answers 500. -/
theorem getTransaction_error_mapping (db : List Row) (id e : String) :
    (getTransaction db id (some e)).1 = ⟨404, .jsonErr "Transaction not found"⟩ ∧
    (getTransaction [] id none).1 = ⟨404, .jsonErr "Transaction not found"⟩ := by
  refine ⟨rfl, ?_⟩
  unfold getTransaction qById
  cases h : castToInt id <;> simp [h]

/-- C2, counterexample: on the empty store, `GET /transactions` answers 200
with JSON `null` (the nil Go slice), not an empty array. -/
theorem getTransactions_empty_counterexample :
    getTransactions [] none = (⟨200, Body.jsonNull⟩, []) ∧
    Body.jsonNull ≠ Body.jsonList [] := by
  decide

/-- C2, amended: `GET /transactions` answers 200 with the rows sorted by
`date` descending for every store state, but on the empty store the body is
JSON `null` (the nil slice serializes to `null`), not an empty array. -/
theorem getTransactions_ordered (db : List Row) :
    (getTransactions db none).1.status = 200 ∧
    (getTransactions db none).1.body =
      (if db = [] then Body.jsonNull
       else Body.jsonList ((sortByDateDesc db).map toTransaction)) ∧
    List.Perm (sortByDateDesc db) db ∧
    List.Sorted dateGe (sortByDateDesc db) ∧
    (getTransactions db none).2 = db := by
  have hsplit : getTransactions db none =
      (⟨200, if db = [] then Body.jsonNull
             else Body.jsonList ((sortByDateDesc db).map toTransaction)⟩, db) := by
    by_cases hdb : db = []
    · subst hdb; rfl
    · have hs : sortByDateDesc db ≠ [] := fun h =>
        hdb ((h ▸ sortByDateDesc_perm db : List.Perm ([] : List Row) db).symm.eq_nil)
      unfold getTransactions
      rcases hm : (sortByDateDesc db).map toTransaction with _ | ⟨t, ts⟩
      · exact absurd (List.map_eq_nil_iff.mp hm) hs
      · simp [hdb]
  rw [hsplit]
  exact ⟨rfl, rfl, sortByDateDesc_perm db, sortByDateDesc_sorted db, rfl⟩

/-- C6: `GET /stats` answers 200 with `total_transactions` the number of
rows, `total_debits` the sum of amounts of rows of type `debit`,
`total_credits` the sum of amounts of rows of type `credit`; on the empty
store all three are zero. -/
theorem getStats_totals (db : List Row) :
    getStats db none none none =
      (⟨200, .jsonStats (qCount db) (qSumDebit db) (qSumCredit db)⟩, db, 3) ∧
    qCount db = db.length ∧
    qSumDebit db = ((db.filter (fun r => r.ty = "debit")).map Row.amount).sum ∧
    qSumCredit db = ((db.filter (fun r => r.ty = "credit")).map Row.amount).sum ∧
    getStats [] none none none = (⟨200, .jsonStats 0 0 0⟩, [], 3) :=
  ⟨rfl, qCount_eq_length db, qSumDebit_eq db, qSumCredit_eq db, rfl⟩

/-- C7: in `GET /stats`, a failure of any of the three aggregate queries
answers 500 with that error at once; the statements after the failing one
are not issued (the statement count stops at the failing query) and no
partial statistics are composed. -/
theorem getStats_shortCircuit (db : List Row) (e : String) (c2 c3 : Option String) :
    getStats db (some e) c2 c3 = (⟨500, .jsonErr e⟩, db, 1) ∧
    getStats db none (some e) c3 = (⟨500, .jsonErr e⟩, db, 2) ∧
    getStats db none none (some e) = (⟨500, .jsonErr e⟩, db, 3) :=
  ⟨rfl, rfl, rfl⟩

/-- C9: the three GET handlers leave the store unchanged in every case —
they only issue SELECT statements, so the state after the request equals
the state before it for every store state and every outcome. -/
theorem get_handlers_preserve_store (db : List Row) (id : String)
    (c c0 c1 c2 c3 : Option String) :
    (getTransactions db c0).2 = db ∧ (getTransaction db id c).2 = db ∧
    (getStats db c1 c2 c3).2.1 = db := by
  refine ⟨?_, ?_, ?_⟩
  · cases c0 with
    | none =>
      unfold getTransactions
      rcases hm : (sortByDateDesc db).map toTransaction with _ | ⟨t, ts⟩ <;> rfl
    | some e => rfl
  · cases c with
    | none =>
      unfold getTransaction
      cases hq : qById db id with
      | error e => rfl
      | ok l => cases l with
        | nil => rfl
        | cons r t => rfl
    | some e => rfl
  · cases c1 <;> cases c2 <;> cases c3 <;> rfl

/-- C10: the raw `id` path parameter reaches the store unparsed, so on a
malformed id the two id-taking handlers diverge: `DELETE
/transactions/{id}` answers 500 carrying the raw store error text, while
`GET /transactions/{id}` answers 404. -/
theorem malformed_id_divergence (db : List Row) (s : String)
    (hbad : castToInt s = none) :
    deleteTransaction db s none = (⟨500, .jsonErr (invalidInputSyntax s)⟩, db) ∧
    getTransaction db s none = (⟨404, .jsonErr "Transaction not found"⟩, db) := by
  constructor
  · unfold deleteTransaction xDeleteById
    rw [hbad]
  · unfold getTransaction qById
    rw [hbad]

/-- C3: on a nonempty store whose maximal-`created_at` rows all belong to
batch `j`, `DELETE /jobs/most-recent` deletes exactly the rows with
`job_id = j`, leaves every row of a different batch in place, and a
subsequent call (under the matching condition for the remaining store)
deletes the next-most-recent batch. -/
theorem deleteMostRecentJob_deletes_batch (db : List Row) (j j2 : String)
    (hne : db ≠ [])
    (hmax : ∀ r ∈ db, (∀ s ∈ db, s.created_at ≤ r.created_at) → r.job_id = j) :
    deleteMostRecentJob db db none none =
      (⟨200, .jsonMsg "Most recent job transactions deleted"⟩,
       db.filter (fun r => r.job_id ≠ j)) ∧
    (∀ r : Row, r ∈ db.filter (fun r => r.job_id ≠ j) ↔ (r ∈ db ∧ r.job_id ≠ j)) ∧
    ((db.filter (fun r => r.job_id ≠ j)) ≠ [] →
      (∀ r ∈ db.filter (fun r => r.job_id ≠ j),
        (∀ s ∈ db.filter (fun r => r.job_id ≠ j), s.created_at ≤ r.created_at) →
        r.job_id = j2) →
      deleteMostRecentJob (db.filter (fun r => r.job_id ≠ j))
          (db.filter (fun r => r.job_id ≠ j)) none none =
        (⟨200, .jsonMsg "Most recent job transactions deleted"⟩,
         (db.filter (fun r => r.job_id ≠ j)).filter (fun r => r.job_id ≠ j2))) := by
  refine ⟨deleteMostRecentJob_step db j hne hmax, ?_,
    fun h1 h2 => deleteMostRecentJob_step _ j2 h1 h2⟩
  intro r
  rw [List.mem_filter]
  simp

/-- C3, witness: batches `A` (created_at 1) and `B` (created_at 2); the
first call removes exactly the `B` row, the second removes the `A` row. -/
theorem deleteMostRecentJob_deletes_batch_witness :
    deleteMostRecentJob [rowA, rowB] [rowA, rowB] none none =
      (⟨200, Body.jsonMsg "Most recent job transactions deleted"⟩, [rowA]) ∧
    deleteMostRecentJob [rowA] [rowA] none none =
      (⟨200, Body.jsonMsg "Most recent job transactions deleted"⟩, []) := by
  obtain ⟨h1, _, h3⟩ :=
    deleteMostRecentJob_deletes_batch [rowA, rowB] "B" "A" (by decide) (by decide)
  refine ⟨h1.trans (by decide), ?_⟩
  have h2 := h3 (by decide) (by decide)
  have hfil : List.filter (fun r => decide (r.job_id ≠ "B")) [rowA, rowB] = [rowA] := by
    decide
  rw [hfil] at h2
  exact h2.trans (by decide)

/-- C4: on a store with no rows at all, the step-1 lookup of `DELETE
/jobs/most-recent` fails with the no-rows error and the handler answers
500, not 404; when step 1 yields a batch id but the step-2 delete affects
zero rows, the handler answers 404. -/
theorem deleteMostRecentJob_error_paths (db1 db2 : List Row) (j : String)
    (hj : qTopJobId db1 = some j) (havoid : ∀ r ∈ db2, r.job_id ≠ j) :
    (∀ dbx : List Row, ∀ c2 : Option String,
      (deleteMostRecentJob [] dbx none c2).1 = ⟨500, .jsonErr noRowsError⟩) ∧
    deleteMostRecentJob db1 db2 none none =
      (⟨404, .jsonErr "Transaction not found"⟩, db2) := by
  constructor
  · intro dbx c2; rfl
  · have h0 : (db2.filter (fun r => r.job_id = j)).length = 0 := by
      rw [List.length_eq_zero]
      exact List.filter_eq_nil_iff.mpr (fun r hr => by simp [havoid r hr])
    have hself : db2.filter (fun r => r.job_id ≠ j) = db2 :=
      List.filter_eq_self.mpr (fun r hr => by simp [havoid r hr])
    unfold deleteMostRecentJob xDeleteByJob
    rw [hj]
    simp only [hself]
    simp
    exact havoid

/-- C4, witness: step 1 over the singleton `B` store, step 2 over a store
holding only the `A` row (the `B` batch already gone), answers 404; the
empty store answers 500. -/
theorem deleteMostRecentJob_error_paths_witness :
    (∀ dbx : List Row, ∀ c2 : Option String,
      (deleteMostRecentJob [] dbx none c2).1 = ⟨500, Body.jsonErr noRowsError⟩) ∧
    deleteMostRecentJob [rowB] [rowA] none none =
      (⟨404, Body.jsonErr "Transaction not found"⟩, [rowA]) :=
  deleteMostRecentJob_error_paths [rowB] [rowA] "B" (by decide) (by decide)

/-- C5: an id that parses but matches no row answers 404, and a malformed
id produces the very same response — the handler does not distinguish the
two cases. -/
theorem getTransaction_notFound_cases (db : List Row) (good bad : String) (i : Int)
    (hg : castToInt good = some i) (hmiss : ∀ r ∈ db, r.id ≠ i)
    (hb : castToInt bad = none) :
    (getTransaction db good none).1 = ⟨404, .jsonErr "Transaction not found"⟩ ∧
    getTransaction db bad none = getTransaction db good none := by
  have hfilter : db.filter (fun r => r.id = i) = [] :=
    List.filter_eq_nil_iff.mpr (fun r hr => by simp [hmiss r hr])
  have hq : qById db good = .ok [] := by
    unfold qById
    rw [hg]
    exact congrArg Except.ok hfilter
  have hgood : getTransaction db good none =
      (⟨404, .jsonErr "Transaction not found"⟩, db) := by
    unfold getTransaction; rw [hq]
  have hbad2 : getTransaction db bad none =
      (⟨404, .jsonErr "Transaction not found"⟩, db) := by
    unfold getTransaction qById; rw [hb]
  rw [hgood, hbad2]
  exact ⟨rfl, rfl⟩

/-- C5, witness: id `5` (absent) and id `xyz` (malformed) on the singleton
store both answer the identical 404. -/
theorem getTransaction_notFound_cases_witness :
    (getTransaction [rowA] "5" none).1 = ⟨404, Body.jsonErr "Transaction not found"⟩ ∧
    getTransaction [rowA] "xyz" none = getTransaction [rowA] "5" none :=
  getTransaction_notFound_cases [rowA] "5" "xyz" 5 (by decide) (by decide) (by decide)

/-- C8: deleting an id present in a store with pairwise-distinct ids
removes exactly that one row (the store is a permutation of the removed row
consed on the new store), and a second call with the same id answers 404
and leaves the store unchanged. -/
theorem deleteTransaction_idempotent (db : List Row) (s : String) (i : Int)
    (hs : castToInt s = some i)
    (hnd : db.Pairwise (fun a b => a.id ≠ b.id))
    (hm : ∃ r ∈ db, r.id = i) :
    ∃ r ∈ db, r.id = i ∧
      deleteTransaction db s none =
        (⟨200, .jsonMsg "Transaction deleted"⟩, db.filter (fun x => x.id ≠ i)) ∧
      List.Perm db (r :: db.filter (fun x => x.id ≠ i)) ∧
      deleteTransaction (db.filter (fun x => x.id ≠ i)) s none =
        (⟨404, .jsonErr "Transaction not found"⟩, db.filter (fun x => x.id ≠ i)) := by
  obtain ⟨r, hr, hi⟩ := hm
  have hsingle : db.filter (fun x => x.id = i) = [r] :=
    filter_id_eq_single db i r hnd hr hi
  have hx : xDeleteById db s =
      .ok (db.filter (fun x => x.id ≠ i), 1) := by
    unfold xDeleteById
    rw [hs]
    show Except.ok (db.filter (fun x => x.id ≠ i),
      (db.filter (fun x => x.id = i)).length) = _
    rw [hsingle]
    simp
  refine ⟨r, hr, hi, ?_, ?_, ?_⟩
  · unfold deleteTransaction
    rw [hx]
    simp
  · have hperm := List.filter_append_perm (fun x => decide (x.id = i)) db
    have hnot : (fun x : Row => !decide (x.id = i)) = (fun x => decide (x.id ≠ i)) := by
      funext x; simp [decide_not]
    rw [hnot, hsingle] at hperm
    exact hperm.symm
  · have hzero : (db.filter (fun x => x.id ≠ i)).filter (fun x => x.id = i) = [] := by
      refine List.filter_eq_nil_iff.mpr (fun b hb => ?_)
      have hbne := (List.mem_filter.mp hb).2
      simp only [decide_eq_true_eq] at hbne ⊢
      exact hbne
    have hfix : (db.filter (fun x => x.id ≠ i)).filter (fun x => x.id ≠ i) =
        db.filter (fun x => x.id ≠ i) :=
      List.filter_eq_self.mpr (fun b hb => (List.mem_filter.mp hb).2)
    have hx2 : xDeleteById (db.filter (fun x => x.id ≠ i)) s =
        .ok (db.filter (fun x => x.id ≠ i), 0) := by
      unfold xDeleteById
      rw [hs]
      show Except.ok ((db.filter (fun x => x.id ≠ i)).filter (fun x => x.id ≠ i),
        ((db.filter (fun x => x.id ≠ i)).filter (fun x => x.id = i)).length) = _
      rw [hfix, hzero]
      simp
    unfold deleteTransaction
    rw [hx2]
    simp

/-- C8, witness: deleting id `1` from the singleton store removes the row;
the repeat call answers 404 and leaves the store empty. -/
theorem deleteTransaction_idempotent_witness :
    ∃ r ∈ [rowA], r.id = 1 ∧
      deleteTransaction [rowA] "1" none =
        (⟨200, Body.jsonMsg "Transaction deleted"⟩,
         List.filter (fun x => decide (x.id ≠ 1)) [rowA]) ∧
      List.Perm [rowA] (r :: List.filter (fun x => decide (x.id ≠ 1)) [rowA]) ∧
      deleteTransaction (List.filter (fun x => decide (x.id ≠ 1)) [rowA]) "1" none =
        (⟨404, Body.jsonErr "Transaction not found"⟩,
         List.filter (fun x => decide (x.id ≠ 1)) [rowA]) :=
  deleteTransaction_idempotent [rowA] "1" 1 (by decide) (by decide) (by decide)

/-- C10, witness at the malformed id `abc` on the empty store. -/
theorem malformed_id_divergence_witness :
    deleteTransaction [] "abc" none =
      (⟨500, Body.jsonErr (invalidInputSyntax "abc")⟩, []) ∧
    getTransaction [] "abc" none =
      (⟨404, Body.jsonErr "Transaction not found"⟩, []) :=
  malformed_id_divergence [] "abc" (by decide)
